import Mathlib

/-!
# Verification of the CyberGuard inference engine

Shallow embedding of `src/scripts/ml_inference.py` (class `CyberAttackPredictor`)
together with the parts of the artifact bundle its behaviour depends on.

Conventions of the embedding:
* Python floats are modelled as exact rationals (`ℚ`); the constants involved
  (0.1, 0.7, 0.9, 1.0) and every comparison the claims exercise are exact.
* A Python expression that can raise is modelled as `Except String α`; the
  string is the exception description (`str(e)`).
* Wall-clock fields (`timestamp`, `processing_time_ms`) are not modelled: they
  carry no data the embedded logic reads.
* `dict`s with insertion order are modelled as association lists
  (`List (String × ℚ)`), `dict.get k default` as `lookupD`.
-/

namespace CyberGuard

/-- `d.get k default` on an insertion-ordered Python dict. -/
def lookupD (features : List (String × ℚ)) (k : String) (d : ℚ) : ℚ :=
  match features.lookup k with
  | some v => v
  | none => d

/-- Does `pat` occur as a contiguous run inside `s`? -/
def containsAux (pat : List Char) : List Char → Bool
  | [] => pat.isEmpty
  | c :: rest => pat.isPrefixOf (c :: rest) || containsAux pat rest

/-- Python's substring test `pat in s` on strings. -/
def strContains (s pat : String) : Bool :=
  containsAux pat.toList s.toList

/-- Python's `str.lower()`, character by character (the URLs and patterns
involved are ASCII, where the two agree). -/
def lowerStr (s : String) : String :=
  (s.toList.map Char.toLower).asString

/-! ## `_calculate_frequency_score` (ml_inference.py lines 122-131) -/

/-- `common_patterns` list of `_calculate_frequency_score`. -/
def common_patterns : List String := [".com", ".org", ".net", "www.", "http", "https"]

/-- `CyberAttackPredictor._calculate_frequency_score`: add 0.1 per common
pattern found in the lower-cased URL, then `min(score, 1.0)`. -/
def calculate_frequency_score (url : String) : ℚ :=
  let score := common_patterns.foldl
    (fun score pattern => if strContains (lowerStr url) pattern then score + 1/10 else score) 0
  min score 1

/-! ## `_count_suspicious_keywords` (ml_inference.py lines 133-150) -/

/-- The `suspicious_keywords` list of `_count_suspicious_keywords`. -/
def suspicious_keywords : List String :=
  ["admin", "root", "password", "passwd", "login", "cmd", "shell",
   "union", "select", "insert", "delete", "drop", "exec", "script",
   "alert", "prompt", "confirm", "javascript", "vbscript",
   "../", "..\\", "/etc/", "/proc/", "/var/",
   "|", "&", ";", "`", "$("]

/-- `CyberAttackPredictor._count_suspicious_keywords`: one count per distinct
keyword found in the lower-cased URL. -/
def count_suspicious_keywords (url : String) : Nat :=
  suspicious_keywords.foldl
    (fun count keyword => if strContains (lowerStr url) keyword then count + 1 else count) 0

/-! ## `_calculate_entropy` (ml_inference.py lines 102-120)

The helper's body reads `math.log2`, but `math` is imported only inside
`extract_features`'s local scope (line 65) and the module has no top-level
`import math`; a method body does not see another method's locals, so the
name `math` is unbound inside `_calculate_entropy`. Consequently the
`if not text` branch returns `0.0` for the empty string, and every non-empty
argument raises `NameError` at the first loop iteration (the character-count
dict of a non-empty string is non-empty, so the loop body runs). -/

/-- `CyberAttackPredictor._calculate_entropy` as executed: `0.0` for the empty
string, `NameError` for everything else (see the section comment). -/
def calculate_entropy (text : String) : Except String ℚ :=
  if text.isEmpty then Except.ok 0
  else Except.error "name 'math' is not defined"

/-- The value `_calculate_entropy`'s loop is written to accumulate, had `math`
been bound: the Shannon entropy of `s` in bits is
`-∑ over distinct characters c of p(c) * log2 (p(c))` with
`p(c) = count(c)/len(s)`. Stated as a `Prop` because the right-hand side
lives in `ℝ`. -/
def IsShannonEntropy (s : String) (x : ℝ) : Prop :=
  x = -∑ c ∈ s.toList.toFinset,
      ((s.toList.count c : ℝ) / s.length) * Real.logb 2 ((s.toList.count c : ℝ) / s.length)

/-! ## `_determine_risk_level` (ml_inference.py lines 217-238) -/

/-- The `high_risk_attacks` list of `_determine_risk_level`. -/
def high_risk_attacks : List String := ["sqli", "xss", "command_injection", "web_shell", "xxe"]

/-- `CyberAttackPredictor._determine_risk_level`. -/
def determine_risk_level (attack_type : String) (confidence : ℚ) : String :=
  if attack_type = "benign" then "low"
  else if attack_type ∈ high_risk_attacks then
    if confidence ≥ 9/10 then "critical"
    else if confidence ≥ 7/10 then "high"
    else "medium"
  else
    if confidence ≥ 9/10 then "high"
    else if confidence ≥ 7/10 then "medium"
    else "low"

/-! ## URL decomposition (`urllib.parse`, imported by `extract_features`) -/

/-- The components of `urllib.parse.urlparse`'s result that
`extract_features` reads. -/
structure UrlParts where
  netloc : String
  path : String
  query : String
deriving DecidableEq

/-- Is `c` legal in a URL scheme after the first character? -/
def isSchemeChar (c : Char) : Bool :=
  c.isAlphanum || c = '+' || c = '-' || c = '.'

/-- Modelled from the Python standard library (`urllib.parse.urlparse`, which
`extract_features` imports): drop the fragment after the first `#`; strip a
`scheme:` prefix when the text before the first `:` is a non-empty well-formed
scheme (a letter followed by letters, digits, `+`, `-`, `.`); read the
authority after a leading `//` up to the next `/` or `?`; split the remainder
into path and query at the first `?`. -/
def urlparse (url : String) : UrlParts :=
  let noFrag := url.toList.takeWhile (· ≠ '#')
  let pre := noFrag.takeWhile (· ≠ ':')
  let afterScheme :=
    if pre.length < noFrag.length ∧ pre ≠ [] ∧
        (pre.headD ' ').isAlpha ∧ pre.all isSchemeChar then
      noFrag.drop (pre.length + 1)
    else noFrag
  if afterScheme.take 2 = ['/', '/'] then
    let rest := afterScheme.drop 2
    let netloc := rest.takeWhile (fun c => c ≠ '/' && c ≠ '?')
    let after := rest.drop netloc.length
    let path := after.takeWhile (· ≠ '?')
    let query := (after.drop path.length).drop 1
    ⟨netloc.asString, path.asString, query.asString⟩
  else
    let path := afterScheme.takeWhile (· ≠ '?')
    let query := (afterScheme.drop path.length).drop 1
    ⟨"", path.asString, query.asString⟩

/-- Python's `s.split(sep)` for a one-character separator: `""` splits to
`[""]`, and every separator occurrence opens a new (possibly empty) field. -/
def splitOnChar (sep : Char) : List Char → List (List Char)
  | [] => [[]]
  | c :: rest =>
    match splitOnChar sep rest with
    | [] => [[]]
    | h :: t => if c = sep then [] :: h :: t else (c :: h) :: t

/-- Modelled from the Python standard library (`urllib.parse.parse_qs`): the
number of distinct parameter names. Fields are split on `&`; a field counts
only when it contains `=` followed by a non-empty value (blank values are
dropped by default). Percent-decoding of names is not modelled: nothing in
the predictor reads individual parameter names. -/
def parse_qs_count (query : String) : Nat :=
  (((splitOnChar '&' query.toList).filterMap (fun field =>
      let name := field.takeWhile (· ≠ '=')
      if name.length < field.length ∧ name.length + 1 < field.length then
        some name
      else none)).dedup).length

/-! ## The remaining feature helpers (ml_inference.py lines 72-86) -/

/-- The character class of the `special_char_count` regular expression
(braces written with escapes). -/
def special_chars : List Char :=
  ['!', '@', '#', '$', '%', '^', '&', '*', '(', ')', '_', '+', '-', '=',
   '[', ']', '\x7b', '\x7d', ';', '\'', ':', '\"', '\\', '|', ',', '.',
   '<', '>', '/', '?']

/-- `special_char_count`: characters of the URL inside the class above. -/
def count_special_chars (url : String) : Nat :=
  url.toList.countP (fun c => special_chars.contains c)

/-- `digit_count`: ASCII digits in the URL. -/
def count_digits (url : String) : Nat :=
  url.toList.countP Char.isDigit

/-- `path_depth`: non-empty segments of `path.split('/')`. -/
def path_depth (path : String) : Nat :=
  (splitOnChar '/' path.toList).countP (fun p => !p.isEmpty)

/-- `subdomain_count`: `max(0, len(domain.split('.')) - 2)`; `Nat`
subtraction is exactly the clamped difference. -/
def subdomain_count (domain : String) : Nat :=
  (splitOnChar '.' domain.toList).length - 2

/-- Is `c` one of `[0-9A-Fa-f]`? -/
def isHexDigitChar (c : Char) : Bool :=
  c.isDigit || ('a' ≤ c ∧ c ≤ 'f') || ('A' ≤ c ∧ c ≤ 'F')

/-- `encoded_chars_count`: non-overlapping occurrences of `%` followed by two
hex digits, scanned left to right as `re.findall` does. -/
def count_encoded : List Char → Nat
  | '%' :: a :: b :: rest =>
      if isHexDigitChar a && isHexDigitChar b then 1 + count_encoded rest
      else count_encoded (a :: b :: rest)
  | _ :: rest => count_encoded rest
  | [] => 0

/-! ## `extract_features` (ml_inference.py lines 60-100) -/

/-- The body of `extract_features`'s `try:` block (the `additional_features`
parameter is always absent in this codebase and is not modelled). The twelve
basic features are computed first, in the dict's insertion order; the
`entropy` entry is appended afterwards, and it is the step that raises for
every non-empty URL (see `calculate_entropy`). -/
def extract_features_core (url : String) : Except String (List (String × ℚ)) := do
  let parsed := urlparse url
  let domain := parsed.netloc
  let path := parsed.path
  let query := parsed.query
  let features : List (String × ℚ) :=
    [("url_length", (url.length : ℚ)),
     ("domain_length", (domain.length : ℚ)),
     ("path_length", (path.length : ℚ)),
     ("query_length", (query.length : ℚ)),
     ("special_char_count", (count_special_chars url : ℚ)),
     ("digit_count", (count_digits url : ℚ)),
     ("path_depth", (path_depth path : ℚ)),
     ("subdomain_count", (subdomain_count domain : ℚ)),
     ("parameter_count", (parse_qs_count query : ℚ)),
     ("encoded_chars_count", (count_encoded url.toList : ℚ)),
     ("frequency_score", calculate_frequency_score url),
     ("suspicious_keyword_count", (count_suspicious_keywords url : ℚ))]
  let e ← calculate_entropy url
  return features ++ [("entropy", e)]

/-- `CyberAttackPredictor.extract_features`: the `try:` body, with the
`except:` clause returning `{col: 0 for col in self.feature_columns}`. -/
def extract_features (feature_columns : List String) (url : String) :
    List (String × ℚ) :=
  match extract_features_core url with
  | Except.ok f => f
  | Except.error _ => feature_columns.map (fun col => (col, 0))

/-! ## The artifact bundle and the scoring pipeline
(ml_inference.py lines 15-58 and 152-258)

A trained classifier is opaque to the inference script: all it uses are
`model.predict` and `model.predict_proba`, each of which may raise. The
scaler and the label encoder are likewise consumed, not defined, here; they
are modelled from the spec's description of the bundle (§3, §4.3): per-feature
centering/scaling statistics applied positionally, and a class list indexed
by the numeric label. -/

/-- A loaded classifier, as the inference script uses it: `predict` returns
the class index of the single row, `predict_proba` its per-class
distribution; either call may raise. -/
structure Model where
  predict : List ℚ → Except String Nat
  predict_proba : List ℚ → Except String (List ℚ)

/-- The state `CyberAttackPredictor.load_models` installs: feature-column
order, the name-to-model mapping (insertion-ordered), scaler statistics and
label-encoder classes, plus the version string. -/
structure Predictor where
  model_version : String
  feature_columns : List String
  models : List (String × Model)
  scaler_mean : List ℚ
  scaler_scale : List ℚ
  classes : List String

/-- Modelled from the spec: `scalerParams` are "per-feature
centering/scaling statistics (e.g., mean and standard deviation) applied
positionally according to `featureColumns`" (the fitted scaler itself is an
external artifact). A row whose width differs from the fitted statistics
raises, as the external scaler does. -/
def scaler_transform (p : Predictor) (v : List ℚ) : Except String (List ℚ) :=
  if v.length = p.scaler_mean.length ∧ p.scaler_mean.length = p.scaler_scale.length then
    Except.ok ((v.zip (p.scaler_mean.zip p.scaler_scale)).map
      (fun x => (x.1 - x.2.1) / x.2.2))
  else
    Except.error "X has a different number of features than the fitted scaler"

/-- Modelled from the spec: the bundle's label encoder maps "the numeric
class index returned by a classifier ... back to its attack-type string";
an index outside the training vocabulary raises. -/
def inverse_transform (p : Predictor) (i : Nat) : Except String String :=
  match p.classes.get? i with
  | some s => Except.ok s
  | none => Except.error "y contains previously unseen labels"

/-- `np.max` on the probability row: the greatest entry, raising on an
empty array as NumPy does. -/
def np_max : List ℚ → Except String ℚ
  | [] => Except.error "zero-size array to reduction operation maximum"
  | x :: xs => Except.ok (xs.foldl max x)

/-- The `all_probabilities` loop of `predict` (lines 184-187): decode every
class index `i` of the distribution and pair it with its probability,
raising as soon as one index is undecodable. -/
def decode_probabilities (p : Predictor) : List (Nat × ℚ) → Except String (List (String × ℚ))
  | [] => Except.ok []
  | (i, pr) :: rest => do
      let name ← inverse_transform p i
      let tail ← decode_probabilities p rest
      return (name, pr) :: tail

/-- The `feature_vector` loop of `predict` (lines 161-163): start from the
empty list and append `features.get(col, 0)` for each column in order. -/
def build_feature_vector (feature_columns : List String)
    (features : List (String × ℚ)) : List ℚ :=
  feature_columns.foldl (fun acc col => acc ++ [lookupD features col 0]) []

/-- The success dict of `predict` (lines 194-205), minus the two wall-clock
fields (`processing_time_ms`, `timestamp`), which no logic reads. -/
structure PredictionRecord where
  url : String
  predicted_attack_type : String
  confidence : ℚ
  risk_level : String
  all_probabilities : List (String × ℚ)
  features : List (String × ℚ)
  model_used : String
  model_version : String
deriving DecidableEq

/-- The error dict of `predict` (lines 211-215), minus `timestamp`. -/
structure ErrorRecord where
  url : String
  error : String
deriving DecidableEq

/-- Python's `self.models[model_type]`: dict indexing, raising `KeyError`
for an absent key. -/
def getModel (p : Predictor) (name : String) : Except String Model :=
  match p.models.lookup name with
  | some m => Except.ok m
  | none => Except.error ("KeyError: " ++ name)

/-- The body of `predict`'s `try:` block (lines 154-207). -/
def predict_core (p : Predictor) (url : String) (model_type : String) :
    Except String PredictionRecord := do
  let features := extract_features p.feature_columns url
  let raw := build_feature_vector p.feature_columns features
  let scaled ← scaler_transform p raw
  let mt := if (p.models.lookup model_type).isSome then model_type else "ensemble"
  let model ← getModel p mt
  let prediction ← model.predict scaled
  let probabilities ← model.predict_proba scaled
  let attack_type ← inverse_transform p prediction
  let confidence ← np_max probabilities
  let all_probs ← decode_probabilities p probabilities.enum
  let risk_level := determine_risk_level attack_type confidence
  return { url := url
           predicted_attack_type := attack_type
           confidence := confidence
           risk_level := risk_level
           all_probabilities := all_probs
           features := features
           model_used := mt
           model_version := p.model_version }

/-- `CyberAttackPredictor.predict`: the `try:` body, with the `except:`
clause building the error dict from the URL and the exception text. -/
def predict (p : Predictor) (url : String) (model_type : String) :
    Sum PredictionRecord ErrorRecord :=
  match predict_core p url model_type with
  | Except.ok r => Sum.inl r
  | Except.error e => Sum.inr { url := url, error := e }

/-- `CyberAttackPredictor.batch_predict` (lines 240-248): start from the
empty result list and append `predict(url, model_type)` for each URL. -/
def batch_predict (p : Predictor) (urls : List String) (model_type : String) :
    List (Sum PredictionRecord ErrorRecord) :=
  urls.foldl (fun results url => results ++ [predict p url model_type]) []

/-! ## Soft voting (`create_ensemble`, ml_training.py lines 193-210)

The `ensemble` artifact is an sklearn `VotingClassifier(voting='soft')` over
the `random_forest` and `xgboost` members; the voting arithmetic lives in
sklearn, outside this repository, so it is modelled from the spec (§4.3). -/

/-- Modelled from the spec: soft voting returns, per class, "the arithmetic
mean ... of the member models' own probability distributions, each member
weighted equally". -/
def soft_vote (dists : List (List ℚ)) : List ℚ :=
  (List.range ((dists.headD []).length)).map
    (fun j => ((dists.map (fun d => d.getD j 0)).sum) / (dists.length : ℚ))

/-- Modelled from the spec: "the argmax of this averaged distribution; ties
broken by lowest class index" — the first index whose entry equals the
maximum of the list. -/
def argmax (l : List ℚ) : Nat :=
  l.findIdx (fun v => decide (∀ x ∈ l, x ≤ v))

/-- Modelled from the spec and `create_ensemble`: the combined classifier
averages its members' distributions and predicts the argmax of the average. -/
def create_ensemble (members : List Model) : Model where
  predict_proba := fun x => do
    let ds ← members.mapM (fun m => m.predict_proba x)
    return soft_vote ds
  predict := fun x => do
    let ds ← members.mapM (fun m => m.predict_proba x)
    return argmax (soft_vote ds)

/-! ## Small synthetic bundles (for concrete evaluations)

The spec's design notes call for exactly this: "tests can construct small
synthetic bundles rather than loading real model files". -/

/-- A classifier that ignores its input and returns a fixed class index and
a fixed distribution. -/
def constModel (k : Nat) (dist : List ℚ) : Model :=
  { predict := fun _ => Except.ok k
    predict_proba := fun _ => Except.ok dist }

/-- A two-feature, two-class bundle whose only model is `ensemble`. -/
def testPredictor : Predictor :=
  { model_version := "1.0.0"
    feature_columns := ["url_length", "entropy"]
    models := [("ensemble", constModel 0 [1, 0])]
    scaler_mean := [0, 0]
    scaler_scale := [1, 1]
    classes := ["benign", "sqli"] }

/-- A degenerate bundle with no models at all: every prediction hits the
`KeyError` on the `ensemble` fallback lookup. -/
def emptyPredictor : Predictor :=
  { model_version := "1.0.0"
    feature_columns := []
    models := []
    scaler_mean := []
    scaler_scale := []
    classes := [] }

/-! ## Shared helper lemmas -/

/-- A Python loop that appends `f a` for every `a` is `List.map`. -/
theorem foldl_append_singleton_eq_map {α β : Type} (f : α → β) :
    ∀ (l : List α) (acc : List β),
      l.foldl (fun r a => r ++ [f a]) acc = acc ++ l.map f := by
  intro l
  induction l with
  | nil => intro acc; simp
  | cons a l ih => intro acc; simp [ih]

/-- Inverting one `Except`-monad bind that succeeded. -/
theorem except_bind_eq_ok {α β : Type} (x : Except String α) (f : α → Except String β)
    (b : β) (h : Bind.bind x f = Except.ok b) :
    ∃ a, x = Except.ok a ∧ f a = Except.ok b := by
  cases x with
  | ok a => exact ⟨a, rfl, h⟩
  | error e => simp [Bind.bind, Except.bind] at h

/-! ## Claim theorems -/

/-- C3: the risk classifier is a pure total function of
`(attackType, confidence)` implementing the policy table: `benign` is always
`low`; the high-risk set yields `critical`/`high`/`medium` at the 0.9 and 0.7
thresholds; every other attack type yields `high`/`medium`/`low` at the same
thresholds; and the six example evaluations hold. -/
theorem risk_level_policy (a : String) (c : ℚ) :
    (a = "benign" → determine_risk_level a c = "low")
    ∧ (a ∈ high_risk_attacks →
        determine_risk_level a c =
          if 9/10 ≤ c then "critical" else if 7/10 ≤ c then "high" else "medium")
    ∧ (a ≠ "benign" → a ∉ high_risk_attacks →
        determine_risk_level a c =
          if 9/10 ≤ c then "high" else if 7/10 ≤ c then "medium" else "low")
    ∧ determine_risk_level "benign" (99/100) = "low"
    ∧ determine_risk_level "sqli" (95/100) = "critical"
    ∧ determine_risk_level "sqli" (75/100) = "high"
    ∧ determine_risk_level "sqli" (1/2) = "medium"
    ∧ determine_risk_level "typosquatting" (95/100) = "high"
    ∧ determine_risk_level "typosquatting" (1/2) = "low":= by
  refine ⟨?_, ?_, ?_,
    by norm_num [determine_risk_level, high_risk_attacks] <;> decide,
    by norm_num [determine_risk_level, high_risk_attacks] <;> decide,
    by norm_num [determine_risk_level, high_risk_attacks] <;> decide,
    by norm_num [determine_risk_level, high_risk_attacks] <;> decide,
    by norm_num [determine_risk_level, high_risk_attacks] <;> decide,
    by norm_num [determine_risk_level, high_risk_attacks] <;> decide⟩
  · intro h
    simp [determine_risk_level, h]
  · intro h
    have hb : a ≠ "benign" := by
      intro hEq
      rw [hEq] at h
      simp [high_risk_attacks] at h
    simp only [determine_risk_level, if_neg hb, if_pos h, ge_iff_le]
  · intro hb hm
    simp only [determine_risk_level, if_neg hb, if_neg hm, ge_iff_le]

/-- C3 witness: the general table applied at `("sqli", 0.95)`. -/
theorem risk_level_policy_witness :
    "sqli" ∈ high_risk_attacks ∧ determine_risk_level "sqli" (95/100) = "critical" := by
  refine ⟨by decide, ?_⟩
  have h := (risk_level_policy "sqli" (95/100)).2.1 (by decide)
  rw [h]
  norm_num

/-- The frequency-score fold, unrolled over its six fixed patterns. -/
theorem freq_score_cases (url : String) :
    calculate_frequency_score url =
      (if strContains (lowerStr url) ".com" then (1:ℚ)/10 else 0)
      + (if strContains (lowerStr url) ".org" then (1:ℚ)/10 else 0)
      + (if strContains (lowerStr url) ".net" then (1:ℚ)/10 else 0)
      + (if strContains (lowerStr url) "www." then (1:ℚ)/10 else 0)
      + (if strContains (lowerStr url) "http" then (1:ℚ)/10 else 0)
      + (if strContains (lowerStr url) "https" then (1:ℚ)/10 else 0) := by
  cases h1 : strContains (lowerStr url) ".com" <;>
    cases h2 : strContains (lowerStr url) ".org" <;>
      cases h3 : strContains (lowerStr url) ".net" <;>
        cases h4 : strContains (lowerStr url) "www." <;>
          cases h5 : strContains (lowerStr url) "http" <;>
            cases h6 : strContains (lowerStr url) "https" <;>
              simp only [calculate_frequency_score, common_patterns, List.foldl,
                h1, h2, h3, h4, h5, h6, if_true, if_false, Bool.false_eq_true,
                min_def] <;>
                norm_num

/-- C8 counterexample: the URL below contains all six common patterns
case-insensitively, yet its frequency score is 0.6, not the claimed 1.0 —
six increments of 0.1 can never reach the clamp at 1.0. -/
theorem frequency_score_all_six_counterexample :
    (common_patterns.all
      (fun pat => strContains (lowerStr "https://www.example.com/.org/.net") pat)) = true
    ∧ calculate_frequency_score "https://www.example.com/.org/.net" = 3/5
    ∧ (3/5 : ℚ) ≠ 1 := by
  refine ⟨by decide, ?_, by norm_num⟩
  rw [freq_score_cases,
    if_pos (show strContains (lowerStr "https://www.example.com/.org/.net") ".com" = true by decide),
    if_pos (show strContains (lowerStr "https://www.example.com/.org/.net") ".org" = true by decide),
    if_pos (show strContains (lowerStr "https://www.example.com/.org/.net") ".net" = true by decide),
    if_pos (show strContains (lowerStr "https://www.example.com/.org/.net") "www." = true by decide),
    if_pos (show strContains (lowerStr "https://www.example.com/.org/.net") "http" = true by decide),
    if_pos (show strContains (lowerStr "https://www.example.com/.org/.net") "https" = true by decide)]
  norm_num

/-- C8 amended: the frequency score adds 0.1 for each of the six
case-insensitive substrings present anywhere in the URL and is clamped to
[0, 1], but the clamp is unreachable: the score always equals 0.1 times the
number of patterns present, lies in [0, 0.6] — so it is 0.0 when no pattern
is present and 0.6, not 1.0, when all six are present. -/
theorem frequency_score_amended (url : String) :
    calculate_frequency_score url =
      (if strContains (lowerStr url) ".com" then (1:ℚ)/10 else 0)
      + (if strContains (lowerStr url) ".org" then (1:ℚ)/10 else 0)
      + (if strContains (lowerStr url) ".net" then (1:ℚ)/10 else 0)
      + (if strContains (lowerStr url) "www." then (1:ℚ)/10 else 0)
      + (if strContains (lowerStr url) "http" then (1:ℚ)/10 else 0)
      + (if strContains (lowerStr url) "https" then (1:ℚ)/10 else 0)
    ∧ 0 ≤ calculate_frequency_score url
    ∧ calculate_frequency_score url ≤ 3/5 := by
  refine ⟨freq_score_cases url, ?_, ?_⟩ <;>
    rw [freq_score_cases url] <;>
      split_ifs <;> norm_num

/-- C2: `predict` never propagates an exception: every call returns either a
success record or an error record carrying the input URL and the exception
description — and whenever any step of the pipeline raises, the result is
exactly that error record, never a mixture of the two shapes. -/
theorem predict_error_result_shape (p : Predictor) (url m : String) :
    ((∃ r, predict p url m = Sum.inl r)
      ∨ (∃ e, predict p url m = Sum.inr { url := url, error := e }))
    ∧ (∀ e, predict_core p url m = Except.error e →
        predict p url m = Sum.inr { url := url, error := e })
    ∧ (∀ r, predict_core p url m = Except.ok r → predict p url m = Sum.inl r) := by
  refine ⟨?_, ?_, ?_⟩
  · cases h : predict_core p url m with
    | ok r => exact Or.inl ⟨r, by simp [predict, h]⟩
    | error e => exact Or.inr ⟨e, by simp [predict, h]⟩
  · intro e h
    simp [predict, h]
  · intro r h
    simp [predict, h]

/-- C2 witness: on a bundle with no models, the pipeline raises at the model
lookup and `predict` returns exactly the error record for that URL. -/
theorem predict_error_result_shape_witness :
    predict_core emptyPredictor "http://x" "nope" = Except.error "KeyError: ensemble"
    ∧ predict emptyPredictor "http://x" "nope" =
        Sum.inr { url := "http://x", error := "KeyError: ensemble" } :=
  ⟨by rfl, (predict_error_result_shape emptyPredictor "http://x" "nope").2.1
    "KeyError: ensemble" (by rfl)⟩

/-- C5: a model name that is not a key of the loaded models mapping is
silently replaced by `ensemble`: the call behaves exactly as
`predict(url, 'ensemble')`, so whenever the ensemble pipeline succeeds the
unknown name yields that same success, never an error caused by the name. -/
theorem predict_unknown_model_falls_back (p : Predictor) (url m : String)
    (h : (p.models.lookup m).isSome = false) :
    predict p url m = predict p url "ensemble"
    ∧ ∀ r, predict p url "ensemble" = Sum.inl r → predict p url m = Sum.inl r := by
  have hcore : predict_core p url m = predict_core p url "ensemble" := by
    unfold predict_core
    rw [h]
    simp only [Bool.false_eq_true, if_false, ite_self]
  refine ⟨?_, ?_⟩
  · unfold predict
    rw [hcore]
  · intro r hr
    unfold predict at hr ⊢
    rw [hcore]
    exact hr

/-- C5 witness: `random_forest` is not loaded in the synthetic bundle, and
the call with that name gives the very result of the `ensemble` call. -/
theorem predict_unknown_model_falls_back_witness :
    (testPredictor.models.lookup "random_forest").isSome = false
    ∧ predict testPredictor "http://x" "random_forest" =
        predict testPredictor "http://x" "ensemble" :=
  ⟨by rfl,
   (predict_unknown_model_falls_back testPredictor "http://x" "random_forest" (by rfl)).1⟩

/-- C6: `batch_predict` maps `predict` over the URLs: it returns exactly one
result per input URL in input order, the result at position `i` is `predict`
of the `i`-th URL, and items are independent — splicing one URL into a batch
inserts its own result at its position and leaves every other position's
result unchanged. -/
theorem batch_predict_ordered (p : Predictor) (mt : String) :
    (∀ urls, batch_predict p urls mt = urls.map (fun u => predict p u mt))
    ∧ (∀ urls, (batch_predict p urls mt).length = urls.length)
    ∧ (∀ urls (i : Nat),
        (batch_predict p urls mt)[i]? = (urls[i]?).map (fun u => predict p u mt))
    ∧ (∀ us bad vs, batch_predict p (us ++ bad :: vs) mt
        = batch_predict p us mt ++ predict p bad mt :: batch_predict p vs mt)
    ∧ (∀ us bad vs,
        (batch_predict p (us ++ bad :: vs) mt)[us.length]? = some (predict p bad mt)) := by
  have hmap : ∀ urls, batch_predict p urls mt = urls.map (fun u => predict p u mt) := by
    intro urls
    simpa [batch_predict] using
      foldl_append_singleton_eq_map (fun u => predict p u mt) urls []
  refine ⟨hmap, ?_, ?_, ?_, ?_⟩
  · intro urls
    rw [hmap]
    exact List.length_map urls _
  · intro urls i
    rw [hmap]
    exact List.getElem?_map _ urls i
  · intro us bad vs
    simp [hmap]
  · intro us bad vs
    rw [hmap, List.map_append, List.getElem?_append_right (by simp)]
    simp

/-- C9: the feature extractor absorbs failures: whenever the extraction body
raises, `extract_features` returns the all-zero mapping over the bundle's
feature columns instead of propagating the error. -/
theorem extract_features_catches (feature_columns : List String) (url e : String)
    (h : extract_features_core url = Except.error e) :
    extract_features feature_columns url =
      feature_columns.map (fun col => (col, (0:ℚ))) := by
  simp [extract_features, h]

/-- C9 witness: extraction of `"http://x"` raises (the unbound `math`), and
the extractor returns the zero default for every known column. -/
theorem extract_features_catches_witness :
    extract_features_core "http://x" = Except.error "name 'math' is not defined"
    ∧ extract_features ["url_length"] "http://x" =
        (["url_length"]).map (fun col => (col, (0:ℚ))) :=
  ⟨by rfl,
   extract_features_catches ["url_length"] "http://x" "name 'math' is not defined" (by rfl)⟩

/-- C10: for every non-empty URL the extraction body raises `NameError` at
the entropy step (`math` is unbound in `_calculate_entropy`), so
`extract_features` returns the all-zero default vector, never the
individually computed values; only the empty string reaches the success
path, because its entropy branch returns before touching `math`. -/
theorem extract_features_nonempty_always_degraded :
    (∀ url : String, url ≠ "" →
      extract_features_core url = Except.error "name 'math' is not defined")
    ∧ (∀ (feature_columns : List String) (url : String), url ≠ "" →
        extract_features feature_columns url =
          feature_columns.map (fun col => (col, (0:ℚ))))
    ∧ (∃ f, extract_features_core "" = Except.ok f) := by
  have hcore : ∀ url : String, url ≠ "" →
      extract_features_core url = Except.error "name 'math' is not defined" := by
    intro url h
    have hne : url.isEmpty = false := by
      cases hb : url.isEmpty
      · rfl
      · exact absurd ((String.isEmpty_iff url).mp hb) h
    simp [extract_features_core, calculate_entropy, hne, Bind.bind, Except.bind]
  refine ⟨hcore, ?_, ⟨_, rfl⟩⟩
  intro cols url h
  simp [extract_features, hcore url h]

/-- C10 witness: the single-character URL `"a"` is degraded to the all-zero
default vector. -/
theorem extract_features_nonempty_always_degraded_witness :
    ("a" : String) ≠ ""
    ∧ extract_features_core "a" = Except.error "name 'math' is not defined"
    ∧ extract_features ["entropy"] "a" = (["entropy"]).map (fun col => (col, (0:ℚ))) :=
  ⟨by decide,
   extract_features_nonempty_always_degraded.1 "a" (by decide),
   extract_features_nonempty_always_degraded.2.1 ["entropy"] "a" (by decide)⟩

/-- C1: `predict` builds the raw vector in `feature_columns` order — the
value of each named feature, with 0 substituted for any name absent from the
extractor's output — so its length always equals the column count; the
scaler is then applied positionally (entry `i` of the scaled vector is
computed from entry `i` of the raw vector and the `i`-th scaler statistics);
and a success record carries exactly the extractor's feature mapping. -/
theorem predict_feature_vector_order (feature_columns : List String)
    (features : List (String × ℚ)) :
    build_feature_vector feature_columns features
      = feature_columns.map (fun col => lookupD features col 0)
    ∧ (build_feature_vector feature_columns features).length = feature_columns.length
    ∧ (∀ (p : Predictor) (v scaled : List ℚ), scaler_transform p v = Except.ok scaled →
        scaled.length = v.length
        ∧ ∀ i : Nat, scaled[i]?
            = v[i]?.bind (fun x => p.scaler_mean[i]?.bind (fun m =>
                p.scaler_scale[i]?.map (fun s => (x - m) / s))))
    ∧ (∀ (p : Predictor) (url mt : String) (r : PredictionRecord),
        predict_core p url mt = Except.ok r →
        r.features = extract_features p.feature_columns url) := by
  have hbuild : build_feature_vector feature_columns features
      = feature_columns.map (fun col => lookupD features col 0) := by
    simpa [build_feature_vector] using
      foldl_append_singleton_eq_map (fun col => lookupD features col 0) feature_columns []
  refine ⟨hbuild, ?_, ?_, ?_⟩
  · rw [hbuild]
    exact List.length_map feature_columns _
  · intro p v scaled h
    unfold scaler_transform at h
    split at h
    case isFalse => exact absurd h (by simp)
    case isTrue hlen =>
      obtain ⟨hv, hms⟩ := hlen
      have hs : scaled = (v.zip (p.scaler_mean.zip p.scaler_scale)).map
          (fun x => (x.1 - x.2.1) / x.2.2) := by
        cases h
        rfl
      subst hs
      constructor
      · simp [List.length_zip, ← hv, ← hms]
      · intro i
        rw [List.getElem?_map, List.zip, List.getElem?_zipWith', List.zip,
          List.getElem?_zipWith']
        cases v[i]? <;> cases p.scaler_mean[i]? <;> cases p.scaler_scale[i]? <;> simp
  · intro p url mt r h
    unfold predict_core at h
    obtain ⟨scaled, hsc, h⟩ := except_bind_eq_ok _ _ _ h
    obtain ⟨model, hmo, h⟩ := except_bind_eq_ok _ _ _ h
    obtain ⟨pred, hpd, h⟩ := except_bind_eq_ok _ _ _ h
    obtain ⟨probs, hpb, h⟩ := except_bind_eq_ok _ _ _ h
    obtain ⟨atype, hat, h⟩ := except_bind_eq_ok _ _ _ h
    obtain ⟨conf, hcf, h⟩ := except_bind_eq_ok _ _ _ h
    obtain ⟨aprobs, hap, h⟩ := except_bind_eq_ok _ _ _ h
    simp only [pure, Except.pure, Except.ok.injEq] at h
    rw [← h]

/-- C1 witness: the general statement applied to a two-column bundle with a
feature mapping missing the first column; the pipeline succeeds on the
synthetic bundle and records the extractor's features. -/
theorem predict_feature_vector_order_witness :
    build_feature_vector ["a", "b"] [("b", 5)]
      = (["a", "b"]).map (fun col => lookupD [("b", 5)] col 0)
    ∧ (build_feature_vector ["a", "b"] [("b", 5)]).length = (["a", "b"] : List String).length
    ∧ scaler_transform testPredictor [0, 0] = Except.ok [(0 - 0) / 1, (0 - 0) / 1]
    ∧ ([((0:ℚ) - 0) / 1, ((0:ℚ) - 0) / 1] : List ℚ)[0]?
        = (([(0:ℚ), 0] : List ℚ)[0]?.bind (fun x => (testPredictor.scaler_mean[0]?.bind
            (fun m => testPredictor.scaler_scale[0]?.map (fun s => (x - m) / s)))))
    ∧ ∃ r : PredictionRecord,
        predict_core testPredictor "http://x" "ensemble" = Except.ok r
        ∧ r.features = extract_features testPredictor.feature_columns "http://x" := by
  have hsc : scaler_transform testPredictor [0, 0] = Except.ok [(0 - 0) / 1, (0 - 0) / 1] := by
    simp [scaler_transform, testPredictor]
  refine ⟨(predict_feature_vector_order ["a", "b"] [("b", 5)]).1,
    (predict_feature_vector_order ["a", "b"] [("b", 5)]).2.1,
    hsc,
    ((predict_feature_vector_order ["a", "b"] [("b", 5)]).2.2.1 testPredictor
      [0, 0] [(0 - 0) / 1, (0 - 0) / 1] hsc).2 0,
    ⟨_, rfl, (predict_feature_vector_order ["a", "b"] [("b", 5)]).2.2.2 testPredictor
      "http://x" "ensemble" _ rfl⟩⟩

/-- C4: the ensemble scores by soft voting: when every member's distribution
is available, its distribution is their per-class equally-weighted arithmetic
mean, and its prediction is the argmax of that average with ties broken by
lowest class index (the first maximal index: every entry is ≤ the entry at
`argmax`, and every earlier entry is strictly below it); on member
distributions `[0.2, 0.8]` and `[0.6, 0.4]` the average is `[0.4, 0.6]` and
the predicted class is index 1. -/
theorem ensemble_soft_voting :
    (∀ (members : List Model) (x : List ℚ) (dists : List (List ℚ)),
      members.mapM (fun m => m.predict_proba x) = Except.ok dists →
        (create_ensemble members).predict_proba x = Except.ok (soft_vote dists)
        ∧ (create_ensemble members).predict x = Except.ok (argmax (soft_vote dists)))
    ∧ (∀ (dists : List (List ℚ)) (j : Nat), j < (dists.headD []).length →
        (soft_vote dists)[j]? =
          some ((dists.map (fun d => d.getD j 0)).sum / (dists.length : ℚ)))
    ∧ (∀ l : List ℚ, l ≠ [] →
        argmax l < l.length
        ∧ (∀ i : Nat, i < l.length → l.getD i 0 ≤ l.getD (argmax l) 0)
        ∧ (∀ i : Nat, i < argmax l → l.getD i 0 < l.getD (argmax l) 0))
    ∧ soft_vote [[2/10, 8/10], [6/10, 4/10]] = [4/10, 6/10]
    ∧ argmax [(4:ℚ)/10, 6/10] = 1 := by
  refine ⟨?_, ?_, ?_, ?_, ?_⟩
  · intro members x dists h
    constructor <;> simp only [create_ensemble] <;> rw [h] <;> rfl
  · intro dists j hj
    rw [soft_vote, List.getElem?_map, List.getElem?_range hj]
    rfl
  · intro l hl
    obtain ⟨m, hm⟩ : ∃ m : ℚ, l.maximum = m := by
      cases hmax : l.maximum with
      | bot => exact absurd hmax (List.maximum_ne_bot_of_ne_nil hl)
      | coe m => exact ⟨m, rfl⟩
    have hmem : m ∈ l := List.maximum_mem hm
    have hle : ∀ a ∈ l, a ≤ m := fun a ha => by
      exact_mod_cast List.le_maximum_of_mem ha hm
    have hex : ∃ v ∈ l, (fun v => decide (∀ x ∈ l, x ≤ v)) v := by
      exact ⟨m, hmem, by simpa using hle⟩
    have hlt : argmax l < l.length := List.findIdx_lt_length_of_exists hex
    have hmax_at : ∀ x ∈ l, x ≤ l.get ⟨argmax l, hlt⟩ := by
      have := List.findIdx_getElem (p := fun v => decide (∀ x ∈ l, x ≤ v)) (w := hlt)
      simpa using this
    refine ⟨hlt, ?_, ?_⟩
    · intro i hi
      have : l.get ⟨i, hi⟩ ≤ l.get ⟨argmax l, hlt⟩ := by
        exact hmax_at _ (by simpa using List.getElem_mem hi)
      simpa [List.getD_eq_getElem?_getD, List.getElem?_eq_getElem hi,
        List.getElem?_eq_getElem hlt] using this
    · intro i hi
      have hil : i < l.length := Nat.lt_trans hi hlt
      have hfalse := List.not_of_lt_findIdx (p := fun v => decide (∀ x ∈ l, x ≤ v)) hi
      have hnot : ¬∀ x ∈ l, x ≤ l.get ⟨i, hil⟩ := by simpa using hfalse
      push_neg at hnot
      obtain ⟨x, hxmem, hxgt⟩ := hnot
      have hxle : x ≤ l.get ⟨argmax l, hlt⟩ := hmax_at _ hxmem
      have : l.get ⟨i, hil⟩ < l.get ⟨argmax l, hlt⟩ := lt_of_lt_of_le hxgt hxle
      simpa [List.getD_eq_getElem?_getD, List.getElem?_eq_getElem hil,
        List.getElem?_eq_getElem hlt] using this
  · have hr : List.range 2 = [0, 1] := rfl
    simp [soft_vote, hr]
    norm_num
  · simp only [argmax, List.findIdx_cons]
    norm_num

/-- C4 witness: the general soft-voting statement applied to two constant
members producing `[0.2, 0.8]` and `[0.6, 0.4]`. -/
theorem ensemble_soft_voting_witness :
    ([constModel 0 [2/10, 8/10], constModel 1 [6/10, 4/10]].mapM
        (fun m => m.predict_proba []) = Except.ok [[2/10, 8/10], [6/10, 4/10]])
    ∧ (create_ensemble [constModel 0 [2/10, 8/10], constModel 1 [6/10, 4/10]]).predict_proba []
        = Except.ok (soft_vote [[2/10, 8/10], [6/10, 4/10]])
    ∧ (0 : Nat) < (([[(2:ℚ)/10, 8/10], [6/10, 4/10]] : List (List ℚ)).headD []).length
    ∧ (soft_vote [[2/10, 8/10], [6/10, 4/10]])[0]? =
        some ((([[(2:ℚ)/10, 8/10], [6/10, 4/10]] : List (List ℚ)).map
          (fun d => d.getD 0 0)).sum / (([[(2:ℚ)/10, 8/10], [6/10, 4/10]] : List (List ℚ)).length : ℚ))
    ∧ ([(4:ℚ)/10, 6/10] : List ℚ) ≠ []
    ∧ argmax [(4:ℚ)/10, 6/10] < ([(4:ℚ)/10, 6/10] : List ℚ).length := by
  have hmapM : [constModel 0 [2/10, 8/10], constModel 1 [6/10, 4/10]].mapM
      (fun m => m.predict_proba []) = Except.ok [[2/10, 8/10], [6/10, 4/10]] := by rfl
  have hne : ([(4:ℚ)/10, 6/10] : List ℚ) ≠ [] := by
    intro h
    cases h
  refine ⟨hmapM,
    (ensemble_soft_voting.1 [constModel 0 [2/10, 8/10], constModel 1 [6/10, 4/10]]
      [] [[2/10, 8/10], [6/10, 4/10]] hmapM).1,
    by decide,
    ensemble_soft_voting.2.1 [[2/10, 8/10], [6/10, 4/10]] 0 (by decide),
    hne,
    (ensemble_soft_voting.2.2.1 [(4:ℚ)/10, 6/10] hne).1⟩

/-- C7: the entropy feature never equals the Shannon entropy of a non-empty
URL, because `_calculate_entropy` raises `NameError` (`math` is imported only
inside `extract_features`'s local scope): on `"ab"` the helper raises and the
extractor falls back to the zero default, while the Shannon entropy the
helper's body is written to compute — and which satisfies the claim's
equations at the empty and constant strings — is 1 bit. -/
theorem entropy_feature_name_error :
    calculate_entropy "ab" = Except.error "name 'math' is not defined"
    ∧ extract_features ["entropy"] "ab" = [("entropy", (0:ℚ))]
    ∧ IsShannonEntropy "ab" 1
    ∧ IsShannonEntropy "aaaa" 0
    ∧ IsShannonEntropy "" 0 := by
  have hlog : Real.logb 2 ((1:ℝ)/2) = -1 := by
    rw [one_div, Real.logb_inv, Real.logb_self_eq_one (by norm_num)]
  refine ⟨by rfl, by rfl, ?_, ?_, ?_⟩
  · have htl : "ab".toList = ['a', 'b'] := rfl
    have hlen : ("ab" : String).length = 2 := rfl
    rw [IsShannonEntropy, htl, hlen]
    have hfs : (['a', 'b'] : List Char).toFinset = insert 'a' {'b'} := rfl
    rw [hfs, Finset.sum_insert (by decide), Finset.sum_singleton]
    have hca : (['a', 'b'] : List Char).count 'a' = 1 := by decide
    have hcb : (['a', 'b'] : List Char).count 'b' = 1 := by decide
    rw [hca, hcb]
    push_cast
    rw [hlog]
    norm_num
  · have htl : "aaaa".toList = ['a', 'a', 'a', 'a'] := rfl
    have hlen : ("aaaa" : String).length = 4 := rfl
    rw [IsShannonEntropy, htl, hlen]
    have hfs : (['a', 'a', 'a', 'a'] : List Char).toFinset = {'a'} := by decide
    rw [hfs, Finset.sum_singleton]
    have hca : (['a', 'a', 'a', 'a'] : List Char).count 'a' = 4 := by decide
    rw [hca]
    push_cast
    norm_num [Real.logb_one]
  · have htl : ("" : String).toList = [] := rfl
    rw [IsShannonEntropy, htl]
    simp

end CyberGuard
